import Mathlib

/-!
Verification of the stack coordination engine of the stackable-sheets demo.

The repository ships two implementations of the sheet registry:

* `SheetMain` embeds `src/src/components/ui/stackable-sheet.tsx` (the current,
  most complete variant): records are `{ id, isOpen }`, `openSheet` appends
  unconditionally, `closeSheet` marks `isOpen = false` and schedules a
  `setTimeout` that removes every record with the closed id (no re-check),
  `isTopSheet` / `isFirstSheet` query the open subsequence, and the geometry
  (`getMaxOffset`, `getSheetDimensions`, the `styles` memo) maps stack
  positions to offsets / scale / opacity.

* `SheetZ` embeds `src/components/ui/stackable-sheet.tsx` (the z-index
  variant): records are `{ id, isOpen, zIndex }`, `openSheet` checks for an
  existing record and only appends when none exists, `closeSheet` returns
  early on an unknown id, and the dialog content installs
  `onPointerDownOutside` / `onInteractOutside` handlers that call
  `preventDefault` unless the sheet is topmost.

JavaScript numbers are modelled as `ℚ` (all arithmetic used here is exact on
the small decimal constants involved); JS `Array.prototype.findIndex`, which
returns the number `-1` on a miss, is modelled explicitly as a ℚ-valued
search, and `Math.min` / `Math.max` as `minQ` / `maxQ`.
-/

namespace SheetMain

/-- `SheetInfo` of src/src/components/ui/stackable-sheet.tsx:
`{ id: string; isOpen: boolean }`. -/
structure SheetInfo where
  id : String
  isOpen : Bool
deriving DecidableEq, Repr

/-- `openSheet` (lines 47–51): `setSheets(prev => [...prev, { id, isOpen: true }])`.
It appends unconditionally, with no check for an existing record. -/
def openSheet (id : String) (prev : List SheetInfo) : List SheetInfo :=
  prev ++ [{ id := id, isOpen := true }]

/-- The synchronous part of `closeSheet` (lines 53–57, 65):
`prev.map(sheet => sheet.id === id ? { ...sheet, isOpen: false } : sheet)`. -/
def closeSheetMark (id : String) (prev : List SheetInfo) : List SheetInfo :=
  prev.map (fun sheet => if sheet.id == id then { sheet with isOpen := false } else sheet)

/-- The body of the `setTimeout` scheduled by `closeSheet` (lines 59–63):
`currentSheets.filter(sheet => sheet.id !== id)`.  It removes every record
whose id equals the captured id, with no check of `isOpen` at fire time. -/
def removeSheet (id : String) (currentSheets : List SheetInfo) : List SheetInfo :=
  currentSheets.filter (fun sheet => !(sheet.id == id))

/-- `isTopSheet` (lines 69–75): `openSheets.at(-1)?.id === id` over
`sheets.filter(s => s.isOpen)`; `undefined === id` is `false` for a string id. -/
def isTopSheet (id : String) (sheets : List SheetInfo) : Bool :=
  match (sheets.filter (fun sheet => sheet.isOpen)).getLast? with
  | some sheet => sheet.id == id
  | none => false

/-- `isFirstSheet` (lines 77–83): `openSheets[0]?.id === id` over
`sheets.filter(s => s.isOpen)`. -/
def isFirstSheet (id : String) (sheets : List SheetInfo) : Bool :=
  match (sheets.filter (fun sheet => sheet.isOpen)).head? with
  | some sheet => sheet.id == id
  | none => false

/-- Registry state together with the pending removal timers of `closeSheet`.
Every timer has the same 300 ms delay, so pending timers fire in the order
they were scheduled; each holds the id captured by its closure. -/
structure RegState where
  sheets : List SheetInfo
  timers : List String
deriving DecidableEq, Repr

/-- The full `closeSheet` call (lines 53–67): synchronously mark the record
closed and schedule one removal timer.  The `setTimeout` call is
unconditional — it runs on every `closeSheet` call, known id or not,
already-closing or not. -/
def closeSheetOp (id : String) (st : RegState) : RegState :=
  { sheets := closeSheetMark id st.sheets, timers := st.timers ++ [id] }

/-- `openSheet` lifted to a `RegState`; it touches no timer. -/
def openSheetOp (id : String) (st : RegState) : RegState :=
  { st with sheets := openSheet id st.sheets }

/-- Firing of the oldest pending removal timer: its stored filter runs
against the sheets list current at fire time. -/
def fireOldestTimer (st : RegState) : RegState :=
  match st.timers with
  | [] => st
  | id :: rest => { sheets := removeSheet id st.sheets, timers := rest }

end SheetMain

namespace SheetZ

/-- `SheetInfo` of src/components/ui/stackable-sheet.tsx:
`{ id: string; zIndex: number; isOpen: boolean }`. -/
structure SheetInfo where
  id : String
  isOpen : Bool
  zIndex : Int
deriving DecidableEq, Repr

/-- `prev.reduce((max, sheet) => Math.max(max, sheet.zIndex), 0)`
(lines 88–91 and 101–104). -/
def highestZIndex (prev : List SheetInfo) : Int :=
  prev.foldl (fun m sheet => max m sheet.zIndex) 0

/-- `openSheet` (lines 83–108): if a record with the id already exists, set
`isOpen = true` and promote its `zIndex` to the current maximum + 1;
otherwise append a fresh record with the highest z-index. -/
def openSheet (id : String) (prev : List SheetInfo) : List SheetInfo :=
  if prev.any (fun sheet => sheet.id == id) then
    let highest := highestZIndex prev
    prev.map (fun sheet =>
      if sheet.id == id then
        { sheet with isOpen := true, zIndex := highest + 1 }
      else sheet)
  else
    let highest := highestZIndex prev
    prev ++ [{ id := id, isOpen := true, zIndex := highest + 1 }]

/-- The synchronous part of `closeSheet` (lines 110–123, 131): return the
state unchanged when the id is unknown, otherwise mark the record closed. -/
def closeSheetMark (id : String) (prev : List SheetInfo) : List SheetInfo :=
  if prev.any (fun sheet => sheet.id == id) then
    prev.map (fun sheet => if sheet.id == id then { sheet with isOpen := false } else sheet)
  else
    prev

/-- The body of the `setTimeout` scheduled by `closeSheet` (lines 125–129):
`currentSheets.filter(sheet => sheet.id !== id)`. -/
def removeSheet (id : String) (currentSheets : List SheetInfo) : List SheetInfo :=
  currentSheets.filter (fun sheet => !(sheet.id == id))

/-- `isTopSheet` (lines 135–144): false on an empty open subsequence, else
compare the last open record's id. -/
def isTopSheet (id : String) (sheets : List SheetInfo) : Bool :=
  match (sheets.filter (fun sheet => sheet.isOpen)).getLast? with
  | some sheet => sheet.id == id
  | none => false

/-- One registry transition of the z-index variant: an `openSheet` call, the
synchronous part of a `closeSheet` call, or the firing of a pending removal
timer (whose captured id is the constructor argument). -/
inductive Op where
  | open_ (id : String)
  | close (id : String)
  | fire (id : String)
deriving DecidableEq, Repr

/-- Apply one transition to the sheets list. -/
def step (sheets : List SheetInfo) : Op → List SheetInfo
  | .open_ id => openSheet id sheets
  | .close id => closeSheetMark id sheets
  | .fire id => removeSheet id sheets

/-- Run a sequence of transitions from a starting sheets list. -/
def run (ops : List Op) (init : List SheetInfo) : List SheetInfo :=
  ops.foldl step init

/-- The outside-interaction event surface of the modal collaborator: the only
observable the handlers touch is whether `preventDefault` has been called. -/
structure OutsideEvent where
  defaultPrevented : Bool
deriving DecidableEq, Repr

/-- The `onPointerDownOutside` / `onInteractOutside` handlers installed on
`Dialog.Content` (lines 402–413): `if (!isTop) { e.preventDefault(); }`. -/
def outsideHandler (isTop : Bool) (e : OutsideEvent) : OutsideEvent :=
  if !isTop then { e with defaultPrevented := true } else e

/-- Modelled from the spec: the modal surface's dismiss capability — the
black-box dialog primitive closes the sheet in response to an outside
pointer/focus event exactly when the event's default action was not
prevented by the installed handlers. -/
def dismissProceeds (e : OutsideEvent) : Bool :=
  !e.defaultPrevented

end SheetZ

namespace SheetMain

/-- The `DialogPrimitive.Content` of src/src/components/ui/stackable-sheet.tsx
(lines 345–351) receives only `{...props}`, `className` and `style`: no
`onPointerDownOutside` / `onInteractOutside` handler is installed, so an
outside pointer/focus event delivered to the sheet passes through with its
`defaultPrevented` state untouched. -/
def contentOutsideHandling (e : SheetZ.OutsideEvent) : SheetZ.OutsideEvent :=
  e

end SheetMain

namespace SheetMain

/-- The four values of the `side` prop. In the source the parameter's type
also admits `undefined` (handled by `default:` switch arms), but every call
site defaults it to `"right"` first, so the embedding keeps the four-valued
union. -/
inductive Side where
  | top
  | right
  | bottom
  | left
deriving DecidableEq, Repr

/-- The browser `window` object's extents; `getMaxOffset` reads
`window.innerWidth` / `window.innerHeight`.  `none` models
`typeof window === "undefined"` (server-side rendering). -/
structure Window where
  innerWidth : ℚ
  innerHeight : ℚ
deriving DecidableEq, Repr

/-- `Math.min` on two JS numbers (modelled as rationals). -/
def minQ (a b : ℚ) : ℚ :=
  if a ≤ b then a else b

/-- `Math.max` on two JS numbers (modelled as rationals). -/
def maxQ (a b : ℚ) : ℚ :=
  if a ≤ b then b else a

/-- `getMaxOffset` (lines 164–182): returns `0` with no window, else
`Math.max(0, extent - baseSize - (viewportPadding + 8))` where the extent is
`innerWidth` for left/right sheets and `innerHeight` for top/bottom ones. -/
def getMaxOffset (w? : Option Window) (side : Side) (baseSize viewportPadding : ℚ) : ℚ :=
  match w? with
  | none => 0
  | some w =>
    let gap : ℚ := 8
    let effectivePadding := viewportPadding + gap
    match side with
    | .right => maxQ 0 (w.innerWidth - baseSize - effectivePadding)
    | .left => maxQ 0 (w.innerWidth - baseSize - effectivePadding)
    | .top => maxQ 0 (w.innerHeight - baseSize - effectivePadding)
    | .bottom => maxQ 0 (w.innerHeight - baseSize - effectivePadding)

/-- `const clampedOffset = Math.min(offsetAmount, maxOffset)`
(getSheetDimensions, lines 193–194). -/
def clampedOffset (w? : Option Window) (side : Side)
    (baseSize offsetAmount viewportPadding : ℚ) : ℚ :=
  minQ offsetAmount (getMaxOffset w? side baseSize viewportPadding)

/-- The style record produced by `getSheetDimensions` (lines 184–232),
reduced to its numeric content: the CSS strings it builds are determined by
the side, the base size, the offset passed to `getTransformValue`, the
scale, the opacity and the transform origin.  Both source branches
(top/bottom and left/right) fill these fields identically; they differ only
in which CSS box properties carry `baseSize` versus the viewport-filling
extent, recorded here by `onVerticalSide`. -/
structure SheetStyle where
  onVerticalSide : Bool
  shortAxisSize : ℚ
  opacity : ℚ
  offsetUsed : ℚ
  scaleUsed : ℚ
  originEdge : Side
deriving DecidableEq, Repr

/-- `getSheetDimensions` (lines 184–232).  For a closing sheet the spread
`...(isClosing ? {...} : {...})` selects
`transform: getTransformValue(side, 0) + " scale(1)"` and the opacity field
is `isClosing ? 1 : opacity`; otherwise the clamped offset, the supplied
scale and the supplied opacity are used. -/
def getSheetDimensions (w? : Option Window) (side : Side)
    (baseSize offsetAmount viewportPadding : ℚ)
    (isClosing : Bool) (scale opacity : ℚ) : SheetStyle :=
  { onVerticalSide := side == Side.top || side == Side.bottom
  , shortAxisSize := baseSize
  , opacity := if isClosing then 1 else opacity
  , offsetUsed := if isClosing then 0
      else clampedOffset w? side baseSize offsetAmount viewportPadding
  , scaleUsed := if isClosing then 1 else scale
  , originEdge := side }

/-- JS `Array.prototype.findIndex`: the (numeric) index of the first element
satisfying the predicate, `-1` when there is none. -/
def findIndexJs (p : α → Bool) : List α → ℚ
  | [] => -1
  | a :: as =>
    if p a then 0
    else
      let r := findIndexJs p as
      if r = -1 then -1 else r + 1

/-- JS `Array.prototype.length` as a number. -/
def lengthJs (l : List α) : ℚ :=
  l.foldr (fun _ n => n + 1) 0

/-- `reversedPosition` in the `styles` memo (lines 295–298):
`openSheets.length - openSheets.findIndex(s => s.id === sheetId) - 1`. -/
def reversedPosition (sheets : List SheetInfo) (sheetId : String) : ℚ :=
  let openSheets := sheets.filter (fun sheet => sheet.isOpen)
  lengthJs openSheets - findIndexJs (fun sheet => sheet.id == sheetId) openSheets - 1

/-- `MAX_OFFSET_POSITION` (line 300). -/
def MAX_OFFSET_POSITION : ℚ := 4

/-- `MAX_SCALE_POSITION` (line 301). -/
def MAX_SCALE_POSITION : ℚ := 4

/-- `offsetAmount` in the `styles` memo (lines 303–304):
`Math.min(reversedPosition, MAX_OFFSET_POSITION) * stackSpacing`. -/
def offsetAmount (sheets : List SheetInfo) (sheetId : String) (stackSpacing : ℚ) : ℚ :=
  minQ (reversedPosition sheets sheetId) MAX_OFFSET_POSITION * stackSpacing

/-- `scale` in the `styles` memo (lines 306–307):
`Math.max(1 - effectiveScalePosition * 0.02, 0.9)`. -/
def scaleVal (sheets : List SheetInfo) (sheetId : String) : ℚ :=
  maxQ (1 - minQ (reversedPosition sheets sheetId) MAX_SCALE_POSITION * (2 / 100)) (9 / 10)

/-- `opacity` in the `styles` memo (line 309):
`Math.max(1 - reversedPosition * 0.05, 0.2)`. -/
def opacityVal (sheets : List SheetInfo) (sheetId : String) : ℚ :=
  maxQ (1 - reversedPosition sheets sheetId * (5 / 100)) (2 / 10)

/-- The `styles` memo of `StackableSheet` (lines 290–320): `{}` when the
sheet has no record, else the `getSheetDimensions` result built from
`isClosing = !currentSheet.isOpen` and the position-derived offset, scale
and opacity. -/
def styles (w? : Option Window) (sheets : List SheetInfo) (sheetId : String)
    (side : Side) (baseSize stackSpacing viewportPadding : ℚ) : Option SheetStyle :=
  match sheets.find? (fun sheet => sheet.id == sheetId) with
  | none => none
  | some currentSheet =>
    some (getSheetDimensions w? side baseSize
      (offsetAmount sheets sheetId stackSpacing) viewportPadding
      (!currentSheet.isOpen)
      (scaleVal sheets sheetId) (opacityVal sheets sheetId))

/-- The viewport extent a sheet stacks along, in the words of the spec
("availableViewportExtent"): the window's width for left/right sheets and
its height for top/bottom sheets.  This is the spec-side counterpart used to
state the clamping claim against `getMaxOffset`. -/
def extentOf (side : Side) (w : Window) : ℚ :=
  match side with
  | .right => w.innerWidth
  | .left => w.innerWidth
  | .top => w.innerHeight
  | .bottom => w.innerHeight

/-- The registry after opening sheets "A", then "B", then "C". -/
def stackABC : List SheetInfo :=
  openSheet "C" (openSheet "B" (openSheet "A" []))

/-- `stackABC` immediately after `closeSheet("C")`'s synchronous update:
"C" is marked closing but still present. -/
def stackABCclosingC : List SheetInfo :=
  closeSheetMark "C" stackABC

/-- `stackABC` after the topmost sheet "C" was closed and its removal timer
fired. -/
def stackABafterC : List SheetInfo :=
  removeSheet "C" stackABCclosingC

end SheetMain

theorem SheetMain.closeSheetMark_eq_self (id : String) (sheets : List SheetMain.SheetInfo)
    (h : ∀ s ∈ sheets, s.id = id → s.isOpen = false) :
    SheetMain.closeSheetMark id sheets = sheets := by
  unfold SheetMain.closeSheetMark
  have hmap : sheets.map
        (fun sheet => if sheet.id == id then { sheet with isOpen := false } else sheet)
      = sheets.map (fun sheet => sheet) := by
    apply List.map_congr_left
    intro s hs
    by_cases hid : s.id = id
    · have hopen := h s hs hid
      cases s
      simp_all
    · simp [hid]
  simpa using hmap

theorem SheetMain.removeSheet_eq_self (id : String) (sheets : List SheetMain.SheetInfo)
    (h : ∀ s ∈ sheets, s.id ≠ id) :
    SheetMain.removeSheet id sheets = sheets := by
  unfold SheetMain.removeSheet
  apply List.filter_eq_self.mpr
  intro s hs
  simpa using h s hs

theorem SheetMain.removeSheet_idem (id : String) (sheets : List SheetMain.SheetInfo) :
    SheetMain.removeSheet id (SheetMain.removeSheet id sheets)
      = SheetMain.removeSheet id sheets := by
  apply SheetMain.removeSheet_eq_self
  intro s hs
  have := List.of_mem_filter hs
  simpa using this

theorem SheetMain.isTopSheet_eq_false (id : String) (sheets : List SheetMain.SheetInfo)
    (h : ∀ s ∈ sheets, s.id ≠ id) :
    SheetMain.isTopSheet id sheets = false := by
  unfold SheetMain.isTopSheet
  cases hl : (sheets.filter (fun sheet => sheet.isOpen)).getLast? with
  | none => rfl
  | some s =>
    have hs : s ∈ sheets.filter (fun sheet => sheet.isOpen) :=
      List.mem_of_mem_getLast? (by simp [hl])
    have hmem : s ∈ sheets := List.mem_of_mem_filter hs
    simpa using h s hmem

theorem SheetMain.isFirstSheet_eq_false (id : String) (sheets : List SheetMain.SheetInfo)
    (h : ∀ s ∈ sheets, s.id ≠ id) :
    SheetMain.isFirstSheet id sheets = false := by
  unfold SheetMain.isFirstSheet
  cases hl : (sheets.filter (fun sheet => sheet.isOpen)).head? with
  | none => rfl
  | some s =>
    have hs : s ∈ sheets.filter (fun sheet => sheet.isOpen) :=
      List.mem_of_mem_head? (by simp [hl])
    have hmem : s ∈ sheets := List.mem_of_mem_filter hs
    simpa using h s hmem

theorem SheetZ.openSheet_map_id (id : String) (prev : List SheetZ.SheetInfo)
    (h : prev.any (fun sheet => sheet.id == id) = true) :
    (SheetZ.openSheet id prev).map SheetZ.SheetInfo.id = prev.map SheetZ.SheetInfo.id := by
  unfold SheetZ.openSheet
  rw [if_pos h]
  simp only [List.map_map]
  apply List.map_congr_left
  intro s _
  by_cases hid : s.id = id <;> simp [hid]

theorem SheetZ.closeSheetMark_map_id (id : String) (prev : List SheetZ.SheetInfo) :
    (SheetZ.closeSheetMark id prev).map SheetZ.SheetInfo.id = prev.map SheetZ.SheetInfo.id := by
  unfold SheetZ.closeSheetMark
  by_cases h : prev.any (fun sheet => sheet.id == id) = true
  · rw [if_pos h]
    simp only [List.map_map]
    apply List.map_congr_left
    intro s _
    by_cases hid : s.id = id <;> simp [hid]
  · rw [if_neg h]

theorem SheetZ.step_nodup (sheets : List SheetZ.SheetInfo) (op : SheetZ.Op)
    (h : (sheets.map SheetZ.SheetInfo.id).Nodup) :
    ((SheetZ.step sheets op).map SheetZ.SheetInfo.id).Nodup := by
  cases op with
  | open_ id =>
    show ((SheetZ.openSheet id sheets).map SheetZ.SheetInfo.id).Nodup
    by_cases hany : sheets.any (fun sheet => sheet.id == id) = true
    · rw [SheetZ.openSheet_map_id id sheets hany]
      exact h
    · unfold SheetZ.openSheet
      rw [if_neg hany]
      simp only [List.map_append, List.map_cons, List.map_nil]
      rw [List.nodup_append]
      refine ⟨h, by simp, ?_⟩
      intro x hx hx'
      simp only [List.mem_singleton] at hx'
      obtain ⟨s, hs, hsid⟩ := List.mem_map.mp hx
      apply hany
      refine List.any_eq_true.mpr ⟨s, hs, ?_⟩
      simp [hsid, hx']
  | close id =>
    show ((SheetZ.closeSheetMark id sheets).map SheetZ.SheetInfo.id).Nodup
    rw [SheetZ.closeSheetMark_map_id]
    exact h
  | fire id =>
    show ((SheetZ.removeSheet id sheets).map SheetZ.SheetInfo.id).Nodup
    exact List.Nodup.sublist (List.Sublist.map _ (List.filter_sublist sheets)) h

theorem SheetZ.run_nodup :
    ∀ (ops : List SheetZ.Op) (init : List SheetZ.SheetInfo),
      (init.map SheetZ.SheetInfo.id).Nodup →
      ((SheetZ.run ops init).map SheetZ.SheetInfo.id).Nodup
  | [], _, h => h
  | op :: ops, init, h => SheetZ.run_nodup ops (SheetZ.step init op) (SheetZ.step_nodup init op h)

/-- C1 (counterexample): in the src/src variant, `openSheet` appends
unconditionally, so re-opening a sheet whose record is still present (open
"A", close "A" synchronously, open "A" again before the removal timer fires)
yields a sheets list holding two records with id "A" — refuting the claim's
"the sheets list never holds two records with that id" on this variant. -/
theorem c1_counterexample_main_duplicate_ids :
    SheetMain.openSheet "A" (SheetMain.closeSheetMark "A" (SheetMain.openSheet "A" []))
        = [{ id := "A", isOpen := false }, { id := "A", isOpen := true }]
      ∧ ¬ ((SheetMain.openSheet "A"
            (SheetMain.closeSheetMark "A" (SheetMain.openSheet "A" []))).map
              SheetMain.SheetInfo.id).Nodup := by
  constructor
  · decide
  · decide

/-- C1 (amended): in the z-index variant (src/components/ui/stackable-sheet.tsx),
whose `openSheet` appends only when no record with the id exists and
otherwise re-marks the existing record open, every sequence of
openSheet / closeSheet / timer-fire transitions from the empty registry
keeps the record ids pairwise distinct: at most one record per id. -/
theorem c1_registry_at_most_one_record_per_id (ops : List SheetZ.Op) :
    ((SheetZ.run ops []).map SheetZ.SheetInfo.id).Nodup :=
  SheetZ.run_nodup ops [] (by simp)

/-- C2 (code evaluated at the failing input): registry `[{id:"A", isOpen:false}]`
with a pending removal timer for "A"; `openSheet("A")` re-opens the sheet
(an open record with id "A" is present), yet when the timer fires its filter
deletes every record with id "A" — the code never re-checks `isOpen` at fire
time, contradicting the claim. -/
theorem c2_timer_deletes_reopened_record :
    ((SheetMain.openSheetOp "A"
        { sheets := [{ id := "A", isOpen := false }], timers := ["A"] }).sheets.any
          (fun s => s.id == "A" && s.isOpen)) = true
      ∧ (SheetMain.fireOldestTimer
          (SheetMain.openSheetOp "A"
            { sheets := [{ id := "A", isOpen := false }], timers := ["A"] })).sheets = [] := by
  constructor
  · decide
  · decide

/-- C3 (counterexample): calling `closeSheet("A")` on a registry whose record
"A" is already marked closing with one pending removal timer is not a no-op
on the full state: the sheets list is unchanged, but the unconditional
`setTimeout` schedules a second removal timer. -/
theorem c3_counterexample_duplicate_timer :
    ¬ (SheetMain.closeSheetOp "A"
          { sheets := [{ id := "A", isOpen := false }], timers := ["A"] }
        = { sheets := [{ id := "A", isOpen := false }], timers := ["A"] })
      ∧ (SheetMain.closeSheetOp "A"
          { sheets := [{ id := "A", isOpen := false }], timers := ["A"] }).timers
        = ["A", "A"] := by
  constructor
  · decide
  · decide

/-- C3 (amended): calling `closeSheet(id)` again while the record is already
marked closing leaves the sheets list unchanged (marking an already-closed
record is the identity), but schedules one additional removal timer; the
duplicate timer is harmless to the sheets list because the removal filter is
idempotent, so absent a reopen the record is removed exactly once. -/
theorem c3_idempotent_on_sheets_but_extra_timer (st : SheetMain.RegState) (id : String)
    (h : ∀ s ∈ st.sheets, s.id = id → s.isOpen = false) :
    (SheetMain.closeSheetOp id st).sheets = st.sheets
      ∧ (SheetMain.closeSheetOp id st).timers = st.timers ++ [id]
      ∧ SheetMain.removeSheet id (SheetMain.removeSheet id st.sheets)
          = SheetMain.removeSheet id st.sheets := by
  refine ⟨?_, rfl, SheetMain.removeSheet_idem id st.sheets⟩
  exact SheetMain.closeSheetMark_eq_self id st.sheets h

/-- C3 witness: the amended statement instantiated at the counterexample's
concrete state. -/
theorem c3_idempotent_on_sheets_but_extra_timer_witness :
    (SheetMain.closeSheetOp "A"
        { sheets := [{ id := "A", isOpen := false }], timers := ["A"] }).sheets
      = [{ id := "A", isOpen := false }]
    ∧ (SheetMain.closeSheetOp "A"
        { sheets := [{ id := "A", isOpen := false }], timers := ["A"] }).timers
      = ["A", "A"]
    ∧ SheetMain.removeSheet "A" (SheetMain.removeSheet "A" [{ id := "A", isOpen := false }])
      = SheetMain.removeSheet "A" [{ id := "A", isOpen := false }] :=
  c3_idempotent_on_sheets_but_extra_timer
    { sheets := [{ id := "A", isOpen := false }], timers := ["A"] } "A" (by decide)

/-- C4: after opening sheets a, then b, then c, `isTopSheet` holds only for c
and `isFirstSheet` only for a; immediately after the synchronous part of
`closeSheet(c)` — before any removal delay — `isTopSheet` holds for b (and no
longer for c), because closing flips `isOpen` to `false` synchronously and
`isTopSheet` reads the last element of the open subsequence. -/
theorem c4_top_first_and_close_transition (a b c : String)
    (hab : a ≠ b) (hac : a ≠ c) (hbc : b ≠ c) :
    SheetMain.isTopSheet c
        (SheetMain.openSheet c (SheetMain.openSheet b (SheetMain.openSheet a []))) = true
    ∧ SheetMain.isTopSheet b
        (SheetMain.openSheet c (SheetMain.openSheet b (SheetMain.openSheet a []))) = false
    ∧ SheetMain.isTopSheet a
        (SheetMain.openSheet c (SheetMain.openSheet b (SheetMain.openSheet a []))) = false
    ∧ SheetMain.isFirstSheet a
        (SheetMain.openSheet c (SheetMain.openSheet b (SheetMain.openSheet a []))) = true
    ∧ SheetMain.isFirstSheet b
        (SheetMain.openSheet c (SheetMain.openSheet b (SheetMain.openSheet a []))) = false
    ∧ SheetMain.isFirstSheet c
        (SheetMain.openSheet c (SheetMain.openSheet b (SheetMain.openSheet a []))) = false
    ∧ SheetMain.isTopSheet b
        (SheetMain.closeSheetMark c
          (SheetMain.openSheet c (SheetMain.openSheet b (SheetMain.openSheet a [])))) = true
    ∧ SheetMain.isTopSheet c
        (SheetMain.closeSheetMark c
          (SheetMain.openSheet c (SheetMain.openSheet b (SheetMain.openSheet a [])))) = false := by
  simp [SheetMain.openSheet, SheetMain.closeSheetMark, SheetMain.isTopSheet,
    SheetMain.isFirstSheet, hab, hac, hbc, Ne.symm hab, Ne.symm hac, Ne.symm hbc]

/-- C4 witness: the transition instantiated for the concrete sheets "A", "B",
"C"; `stackABC` / `stackABCclosingC` unfold to the opening/closing sequence. -/
theorem c4_top_first_and_close_transition_witness :
    SheetMain.isTopSheet "C" SheetMain.stackABC = true
    ∧ SheetMain.isTopSheet "B" SheetMain.stackABC = false
    ∧ SheetMain.isTopSheet "A" SheetMain.stackABC = false
    ∧ SheetMain.isFirstSheet "A" SheetMain.stackABC = true
    ∧ SheetMain.isFirstSheet "B" SheetMain.stackABC = false
    ∧ SheetMain.isFirstSheet "C" SheetMain.stackABC = false
    ∧ SheetMain.isTopSheet "B" SheetMain.stackABCclosingC = true
    ∧ SheetMain.isTopSheet "C" SheetMain.stackABCclosingC = false :=
  c4_top_first_and_close_transition "A" "B" "C" (by decide) (by decide) (by decide)

/-- C9: for an id with no record in the registry, the synchronous part of
`closeSheet` and the removal filter leave the sheets list untouched, and
`isTopSheet` / `isFirstSheet` return `false` — all four operations are total
functions, so none can raise. -/
theorem c9_unknown_id_safe_noop (sheets : List SheetMain.SheetInfo) (id : String)
    (h : ∀ s ∈ sheets, s.id ≠ id) :
    SheetMain.closeSheetMark id sheets = sheets
    ∧ SheetMain.removeSheet id sheets = sheets
    ∧ SheetMain.isTopSheet id sheets = false
    ∧ SheetMain.isFirstSheet id sheets = false :=
  ⟨SheetMain.closeSheetMark_eq_self id sheets (fun s hs hid => absurd hid (h s hs)),
   SheetMain.removeSheet_eq_self id sheets h,
   SheetMain.isTopSheet_eq_false id sheets h,
   SheetMain.isFirstSheet_eq_false id sheets h⟩

/-- C9 witness: the safe no-op at the empty registry (empty open stack) and
at a registry holding only an unrelated sheet. -/
theorem c9_unknown_id_safe_noop_witness :
    (SheetMain.closeSheetMark "X" [] = []
      ∧ SheetMain.removeSheet "X" [] = []
      ∧ SheetMain.isTopSheet "X" [] = false
      ∧ SheetMain.isFirstSheet "X" [] = false)
    ∧ (SheetMain.closeSheetMark "X" [{ id := "B", isOpen := true }]
          = [{ id := "B", isOpen := true }]
      ∧ SheetMain.removeSheet "X" [{ id := "B", isOpen := true }]
          = [{ id := "B", isOpen := true }]
      ∧ SheetMain.isTopSheet "X" [{ id := "B", isOpen := true }] = false
      ∧ SheetMain.isFirstSheet "X" [{ id := "B", isOpen := true }] = false) :=
  ⟨c9_unknown_id_safe_noop [] "X" (by decide),
   c9_unknown_id_safe_noop [{ id := "B", isOpen := true }] "X" (by decide)⟩

theorem SheetMain.closeSheetMark_forall2 (id : String) :
    ∀ sheets : List SheetMain.SheetInfo,
      List.Forall₂
        (fun s t => t.id = s.id ∧ t.isOpen = (if s.id = id then false else s.isOpen))
        sheets (SheetMain.closeSheetMark id sheets)
  | [] => List.Forall₂.nil
  | a :: l => by
    refine List.Forall₂.cons ?_ (SheetMain.closeSheetMark_forall2 id l)
    by_cases hid : a.id = id <;> simp [SheetMain.closeSheetMark, hid]

/-- C10: the synchronous update of `closeSheet(id)` is pointwise — the i-th
output record has the i-th input record's id, its `isOpen` is forced to
`false` exactly when its id matches, and every other field/record is
untouched (records have no further fields); the id sequence, hence length
and relative order, is preserved.  `openSheet(id)` is exactly an append of
one new open record at the end. -/
theorem c10_close_frame_and_open_append (sheets : List SheetMain.SheetInfo) (id : String) :
    List.Forall₂
        (fun s t => t.id = s.id ∧ t.isOpen = (if s.id = id then false else s.isOpen))
        sheets (SheetMain.closeSheetMark id sheets)
    ∧ (SheetMain.closeSheetMark id sheets).map SheetMain.SheetInfo.id
        = sheets.map SheetMain.SheetInfo.id
    ∧ SheetMain.openSheet id sheets = sheets ++ [{ id := id, isOpen := true }] := by
  refine ⟨SheetMain.closeSheetMark_forall2 id sheets, ?_, rfl⟩
  simp only [SheetMain.closeSheetMark, List.map_map]
  apply List.map_congr_left
  intro s _
  by_cases hid : s.id = id <;> simp [hid]

theorem SheetMain.lengthJs_nonneg : ∀ (l : List SheetMain.SheetInfo), 0 ≤ SheetMain.lengthJs l
  | [] => le_refl 0
  | _ :: l => by
    have ih := SheetMain.lengthJs_nonneg l
    show (0 : ℚ) ≤ SheetMain.lengthJs l + 1
    linarith

theorem SheetMain.lengthJs_cons (a : SheetMain.SheetInfo) (l : List SheetMain.SheetInfo) :
    SheetMain.lengthJs (a :: l) = SheetMain.lengthJs l + 1 :=
  rfl

theorem SheetMain.lengthJs_append :
    ∀ (l1 l2 : List SheetMain.SheetInfo),
      SheetMain.lengthJs (l1 ++ l2) = SheetMain.lengthJs l1 + SheetMain.lengthJs l2
  | [], l2 => by
    show SheetMain.lengthJs l2 = SheetMain.lengthJs ([] : List SheetMain.SheetInfo) +
      SheetMain.lengthJs l2
    show SheetMain.lengthJs l2 = 0 + SheetMain.lengthJs l2
    ring
  | a :: l1, l2 => by
    have ih := SheetMain.lengthJs_append l1 l2
    show SheetMain.lengthJs (l1 ++ l2) + 1
      = (SheetMain.lengthJs l1 + 1) + SheetMain.lengthJs l2
    rw [ih]
    ring

theorem SheetMain.findIndexJs_split (p : SheetMain.SheetInfo → Bool) (x : SheetMain.SheetInfo)
    (hx : p x = true) :
    ∀ (l1 l2 : List SheetMain.SheetInfo), (∀ a ∈ l1, p a = false) →
      SheetMain.findIndexJs p (l1 ++ x :: l2) = SheetMain.lengthJs l1
  | [], l2, _ => by
    show SheetMain.findIndexJs p (x :: l2) = 0
    simp [SheetMain.findIndexJs, hx]
  | a :: l1, l2, h1 => by
    have ha : p a = false := h1 a (by simp)
    have ih := SheetMain.findIndexJs_split p x hx l1 l2 (fun s hs => h1 s (by simp [hs]))
    have hge : (0 : ℚ) ≤ SheetMain.lengthJs l1 := SheetMain.lengthJs_nonneg l1
    have hne : SheetMain.findIndexJs p (l1 ++ x :: l2) ≠ -1 := by
      rw [ih]
      intro hcontra
      rw [hcontra] at hge
      norm_num at hge
    show (if p a = true then 0 else
        if SheetMain.findIndexJs p (l1 ++ x :: l2) = -1 then -1
        else SheetMain.findIndexJs p (l1 ++ x :: l2) + 1)
      = SheetMain.lengthJs (a :: l1)
    rw [if_neg (by simp [ha]), if_neg hne, ih, SheetMain.lengthJs_cons]

/-- C5: for an open, non-closing sheet, the `styles` memo's stacking offset
equals `min(reversedPosition, 4) * stackSpacing`, where the reversed
position is the number of open sheets above it (0 = topmost): splitting the
open subsequence as `l1 ++ x :: l2` with the sheet's unique record `x`, the
offset is `min(length l2, 4) * stackSpacing`. -/
theorem c5_offset_is_capped_reversed_position (sheets : List SheetMain.SheetInfo)
    (id : String) (spacing : ℚ) (l1 l2 : List SheetMain.SheetInfo) (x : SheetMain.SheetInfo)
    (hsplit : sheets.filter (fun sheet => sheet.isOpen) = l1 ++ x :: l2)
    (hx : x.id = id)
    (hl1 : ∀ s ∈ l1, s.id ≠ id)
    (_hl2 : ∀ s ∈ l2, s.id ≠ id) :
    SheetMain.offsetAmount sheets id spacing
      = SheetMain.minQ (SheetMain.lengthJs l2) 4 * spacing := by
  unfold SheetMain.offsetAmount SheetMain.reversedPosition SheetMain.MAX_OFFSET_POSITION
  simp only [hsplit]
  rw [SheetMain.findIndexJs_split (fun sheet => sheet.id == id) x (by simp [hx]) l1 l2
    (fun s hs => by simpa using hl1 s hs)]
  rw [SheetMain.lengthJs_append, SheetMain.lengthJs_cons]
  have harith : SheetMain.lengthJs l1 + (SheetMain.lengthJs l2 + 1)
      - SheetMain.lengthJs l1 - 1 = SheetMain.lengthJs l2 := by ring
  rw [harith]

/-- C5 witness: with stack spacing 32 and the three open sheets "A","B","C",
the offsets are 0 / 32 / 64 from top to bottom; after the topmost "C" is
closed and its removal timer has fired, the remaining two recompute to
0 / 32. -/
theorem c5_offset_is_capped_reversed_position_witness :
    SheetMain.offsetAmount SheetMain.stackABC "C" 32 = 0
    ∧ SheetMain.offsetAmount SheetMain.stackABC "B" 32 = 32
    ∧ SheetMain.offsetAmount SheetMain.stackABC "A" 32 = 64
    ∧ SheetMain.offsetAmount SheetMain.stackABafterC "B" 32 = 0
    ∧ SheetMain.offsetAmount SheetMain.stackABafterC "A" 32 = 32 := by
  refine ⟨?_, ?_, ?_, ?_, ?_⟩
  · exact (c5_offset_is_capped_reversed_position SheetMain.stackABC "C" 32
      [{ id := "A", isOpen := true }, { id := "B", isOpen := true }] []
      { id := "C", isOpen := true } (by decide) (by decide) (by decide) (by decide)).trans
      (by norm_num [SheetMain.minQ, SheetMain.lengthJs])
  · exact (c5_offset_is_capped_reversed_position SheetMain.stackABC "B" 32
      [{ id := "A", isOpen := true }] [{ id := "C", isOpen := true }]
      { id := "B", isOpen := true } (by decide) (by decide) (by decide) (by decide)).trans
      (by norm_num [SheetMain.minQ, SheetMain.lengthJs])
  · exact (c5_offset_is_capped_reversed_position SheetMain.stackABC "A" 32
      [] [{ id := "B", isOpen := true }, { id := "C", isOpen := true }]
      { id := "A", isOpen := true } (by decide) (by decide) (by decide) (by decide)).trans
      (by norm_num [SheetMain.minQ, SheetMain.lengthJs])
  · exact (c5_offset_is_capped_reversed_position SheetMain.stackABafterC "B" 32
      [{ id := "A", isOpen := true }] []
      { id := "B", isOpen := true } (by decide) (by decide) (by decide) (by decide)).trans
      (by norm_num [SheetMain.minQ, SheetMain.lengthJs])
  · exact (c5_offset_is_capped_reversed_position SheetMain.stackABafterC "A" 32
      [] [{ id := "B", isOpen := true }]
      { id := "A", isOpen := true } (by decide) (by decide) (by decide) (by decide)).trans
      (by norm_num [SheetMain.minQ, SheetMain.lengthJs])

theorem SheetMain.getMaxOffset_eq_spec (win : SheetMain.Window) (side : SheetMain.Side)
    (base pad : ℚ) :
    SheetMain.getMaxOffset (some win) side base pad
      = SheetMain.maxQ 0 (SheetMain.extentOf side win - base - (pad + 8)) := by
  cases side <;> rfl

/-- C6: with a window present, the applied offset is
`min(raw, max(0, extent - baseSize - (viewportPadding + 8)))`; when the raw
offset exceeds that maximum the maximum is used, and when the available room
is negative the offset clamps to 0 (given a non-negative raw offset) rather
than going negative. -/
theorem c6_offset_clamping (win : SheetMain.Window) (side : SheetMain.Side)
    (base pad raw : ℚ) :
    SheetMain.clampedOffset (some win) side base raw pad
        = SheetMain.minQ raw
            (SheetMain.maxQ 0 (SheetMain.extentOf side win - base - (pad + 8)))
    ∧ (SheetMain.getMaxOffset (some win) side base pad < raw →
        SheetMain.clampedOffset (some win) side base raw pad
          = SheetMain.getMaxOffset (some win) side base pad)
    ∧ (SheetMain.extentOf side win - base - (pad + 8) < 0 → 0 ≤ raw →
        SheetMain.clampedOffset (some win) side base raw pad = 0) := by
  refine ⟨?_, ?_, ?_⟩
  · unfold SheetMain.clampedOffset
    rw [SheetMain.getMaxOffset_eq_spec]
  · intro hlt
    unfold SheetMain.clampedOffset SheetMain.minQ
    rw [if_neg (not_le.mpr hlt)]
  · intro hneg hraw
    unfold SheetMain.clampedOffset
    rw [SheetMain.getMaxOffset_eq_spec]
    unfold SheetMain.maxQ
    rw [if_neg (not_le.mpr hneg)]
    unfold SheetMain.minQ
    by_cases h0 : raw ≤ 0
    · rw [if_pos h0]
      exact le_antisymm h0 hraw
    · rw [if_neg h0]

/-- C6 witness: side "right", base size 500, viewport padding 32.  In a
1000-wide window a raw offset 64 passes through unclamped; in a 600-wide
window the same raw offset clamps to the maximum 60; in a 500-wide window
(available room negative) it clamps to 0. -/
theorem c6_offset_clamping_witness :
    SheetMain.clampedOffset (some { innerWidth := 1000, innerHeight := 800 })
        SheetMain.Side.right 500 64 32 = 64
    ∧ SheetMain.clampedOffset (some { innerWidth := 600, innerHeight := 800 })
        SheetMain.Side.right 500 64 32 = 60
    ∧ SheetMain.clampedOffset (some { innerWidth := 500, innerHeight := 800 })
        SheetMain.Side.right 500 64 32 = 0 := by
  refine ⟨?_, ?_, ?_⟩
  · exact (c6_offset_clamping { innerWidth := 1000, innerHeight := 800 }
      SheetMain.Side.right 500 32 64).1.trans
      (by norm_num [SheetMain.minQ, SheetMain.maxQ, SheetMain.extentOf])
  · exact (c6_offset_clamping { innerWidth := 600, innerHeight := 800 }
      SheetMain.Side.right 500 32 64).1.trans
      (by norm_num [SheetMain.minQ, SheetMain.maxQ, SheetMain.extentOf])
  · exact (c6_offset_clamping { innerWidth := 500, innerHeight := 800 }
      SheetMain.Side.right 500 32 64).2.2 (by norm_num [SheetMain.extentOf]) (by norm_num)

/-- C7: for a sheet whose record is present but marked `isOpen = false`
(closing), the computed style overrides the stacked values: the transform
offset is 0, the scale is 1 and the opacity is 1, for every side, window,
configuration and registry content — in particular regardless of the values
a non-closing sheet at that stack position would get. -/
theorem c7_closing_override (w? : Option SheetMain.Window) (sheets : List SheetMain.SheetInfo)
    (id : String) (side : SheetMain.Side) (base spacing pad : ℚ) (s : SheetMain.SheetInfo)
    (hfind : sheets.find? (fun sheet => sheet.id == id) = some s)
    (hclosed : s.isOpen = false) :
    (SheetMain.styles w? sheets id side base spacing pad).map SheetMain.SheetStyle.offsetUsed
        = some 0
    ∧ (SheetMain.styles w? sheets id side base spacing pad).map SheetMain.SheetStyle.scaleUsed
        = some 1
    ∧ (SheetMain.styles w? sheets id side base spacing pad).map SheetMain.SheetStyle.opacity
        = some 1 := by
  simp only [SheetMain.styles, hfind]
  simp [SheetMain.getSheetDimensions, hclosed]

/-- C7 witness: the closing sheet "C" of the three-sheet stack gets offset 0,
scale 1 and opacity 1 even though a non-closing sheet in its position would
be offset by the stack spacing. -/
theorem c7_closing_override_witness :
    (SheetMain.styles (some { innerWidth := 1000, innerHeight := 800 })
        SheetMain.stackABCclosingC "C" SheetMain.Side.right 500 32 32).map
          SheetMain.SheetStyle.offsetUsed = some 0
    ∧ (SheetMain.styles (some { innerWidth := 1000, innerHeight := 800 })
        SheetMain.stackABCclosingC "C" SheetMain.Side.right 500 32 32).map
          SheetMain.SheetStyle.scaleUsed = some 1
    ∧ (SheetMain.styles (some { innerWidth := 1000, innerHeight := 800 })
        SheetMain.stackABCclosingC "C" SheetMain.Side.right 500 32 32).map
          SheetMain.SheetStyle.opacity = some 1 :=
  c7_closing_override (some { innerWidth := 1000, innerHeight := 800 })
    SheetMain.stackABCclosingC "C" SheetMain.Side.right 500 32 32
    { id := "C", isOpen := false } (by decide) (by decide)

/-- C8 (counterexample): in the src/src variant the dialog content installs
no outside-interaction handler, so an outside-pointer event delivered to a
mounted sheet that is not topmost (here "A" under the top sheet "B") is not
default-prevented and the dismissal proceeds — refuting the claim's "the
event's default action is prevented" for that variant. -/
theorem c8_counterexample_main_has_no_gate :
    SheetMain.isTopSheet "A"
        [{ id := "A", isOpen := true }, { id := "B", isOpen := true }] = false
    ∧ (SheetMain.contentOutsideHandling { defaultPrevented := false }).defaultPrevented = false
    ∧ SheetZ.dismissProceeds
        (SheetMain.contentOutsideHandling { defaultPrevented := false }) = true := by
  refine ⟨by decide, rfl, rfl⟩

/-- C8 (amended): in the variant that installs the outside-interaction
handlers (src/components/ui/stackable-sheet.tsx), a delivered outside
pointer/focus event ends up default-prevented exactly when it was already
prevented or the sheet is not the topmost open sheet; hence dismissal never
proceeds for a non-topmost sheet, and proceeds for the topmost sheet
whenever the event arrived unprevented. -/
theorem c8_outside_gate (sheets : List SheetZ.SheetInfo) (id : String)
    (e : SheetZ.OutsideEvent) :
    (SheetZ.outsideHandler (SheetZ.isTopSheet id sheets) e).defaultPrevented
        = (e.defaultPrevented || !(SheetZ.isTopSheet id sheets))
    ∧ (SheetZ.isTopSheet id sheets = false →
        SheetZ.dismissProceeds (SheetZ.outsideHandler (SheetZ.isTopSheet id sheets) e) = false)
    ∧ (SheetZ.isTopSheet id sheets = true → e.defaultPrevented = false →
        SheetZ.dismissProceeds (SheetZ.outsideHandler (SheetZ.isTopSheet id sheets) e)
          = true) := by
  cases hb : SheetZ.isTopSheet id sheets <;> obtain ⟨ep⟩ := e <;> cases ep <;>
    simp [SheetZ.outsideHandler, SheetZ.dismissProceeds]

/-- C8 witness: with open z-index-variant sheets "A" (below) and "B" (top),
an unprevented outside event on "A" does not let dismissal proceed, while
the same event on "B" does. -/
theorem c8_outside_gate_witness :
    SheetZ.dismissProceeds
        (SheetZ.outsideHandler
          (SheetZ.isTopSheet "A"
            [{ id := "A", isOpen := true, zIndex := 1 },
             { id := "B", isOpen := true, zIndex := 2 }])
          { defaultPrevented := false }) = false
    ∧ SheetZ.dismissProceeds
        (SheetZ.outsideHandler
          (SheetZ.isTopSheet "B"
            [{ id := "A", isOpen := true, zIndex := 1 },
             { id := "B", isOpen := true, zIndex := 2 }])
          { defaultPrevented := false }) = true :=
  ⟨(c8_outside_gate
      [{ id := "A", isOpen := true, zIndex := 1 }, { id := "B", isOpen := true, zIndex := 2 }]
      "A" { defaultPrevented := false }).2.1 (by decide),
   (c8_outside_gate
      [{ id := "A", isOpen := true, zIndex := 1 }, { id := "B", isOpen := true, zIndex := 2 }]
      "B" { defaultPrevented := false }).2.2 (by decide) rfl⟩
